import Mathlib

/-!
Verification development for the Netcatty Windows Hello native addon
(`src/electron/native/netcatty-windows-hello/src/addon.cc`).

The addon drives WebAuthn-style ceremonies (capability probe, credential
creation, assertion) against the Windows platform authenticator.  The
development below shallowly embeds the addon's pure helpers directly
(base64url encoding, client-data construction, HRESULT formatting, the
window-resolution heuristics) and embeds the stateful/OS-facing paths as
functions over explicit oracle environments: the Win32 window world, the
platform authenticator's responses, and the process-wide COM-security
state.  Every OS call the addon performs is recorded as an event in a
trace, so that ordering and resource-lifetime properties can be stated.

Machine integers are modelled as `Nat`/`Int`; bytes as `Fin 256`; window
handles (`HWND`) as `Nat` with `0` standing for the null pointer.
-/

namespace Netcatty

/-- Bytes of the byte sequences crossing the addon's boundary. -/
abbrev Byte := Fin 256

/-- Window handles: pointer-sized tokens, `0` is the null handle. -/
abbrev Hwnd := Nat

/-! ## Windows constants

Values of the `webauthn.h` / COM constants the addon uses.  The header is
part of the Windows SDK (an external collaborator of the repository); the
numeric values are the SDK's published ones. -/

/-- COSE algorithm identifier for ES256 (`webauthn.h`). -/
def WEBAUTHN_COSE_ALGORITHM_ECDSA_P256_WITH_SHA256 : Int := -7

/-- COSE algorithm identifier for RS256 (`webauthn.h`). -/
def WEBAUTHN_COSE_ALGORITHM_RSASSA_PKCS1_V1_5_WITH_SHA256 : Int := -257

/-- User-verification requirement "required" (`webauthn.h`). -/
def WEBAUTHN_USER_VERIFICATION_REQUIREMENT_REQUIRED : Nat := 1

/-- Attestation conveyance "none" (`webauthn.h`). -/
def WEBAUTHN_ATTESTATION_CONVEYANCE_PREFERENCE_NONE : Nat := 1

/-- Authenticator attachment "platform" (`webauthn.h`). -/
def WEBAUTHN_AUTHENTICATOR_ATTACHMENT_PLATFORM : Nat := 1

/-- The HRESULT `RPC_E_TOO_LATE` (0x80010119) as a signed 32-bit value. -/
def RPC_E_TOO_LATE : Int := -2147417831

/-- The HRESULT `S_OK`. -/
def S_OK : Int := 0

/-- The `SUCCEEDED` macro on a signed 32-bit HRESULT. -/
def succeeded (hr : Int) : Bool := decide (0 ≤ hr)

/-- The `FAILED` macro on a signed 32-bit HRESULT. -/
def failed (hr : Int) : Bool := decide (hr < 0)

/-! ## HRESULT formatting (`HResultToString`, addon.cc:198-214)

The addon renders `"HRESULT=0x%08X"` and then best-effort appends a
`FormatMessageW` text.  `FormatMessageW` is an OS message-table lookup; the
embedding keeps the always-present hexadecimal part (the code's fallback
when the lookup yields nothing).  No claim inspects the appended text. -/

/-- Uppercase hexadecimal digit, as `%X` prints one. -/
def hexDigit (n : Nat) : Char :=
  "0123456789ABCDEF".toList.getD n '0'

/-- Fixed-width big-endian hexadecimal rendering (`%08X` with width 8). -/
def toHexFixed : Nat → Nat → List Char
  | 0, _ => []
  | w + 1, v => toHexFixed w (v / 16) ++ [hexDigit (v % 16)]

/-- The `HResultToString` code part: `HRESULT=0x%08X` of the HRESULT's
unsigned 32-bit representation (addon.cc:198-200). -/
def HResultToString (hr : Int) : String :=
  "HRESULT=0x" ++ String.mk (toHexFixed 8 (hr.emod 4294967296).toNat)

/-! ## Randomness and encoding (addon.cc:216-241) -/

/-- The standard base64 alphabet, as `CryptBinaryToStringA` with
`CRYPT_STRING_BASE64` uses it. -/
def b64Alphabet : List Char :=
  [ 'A', 'B', 'C', 'D', 'E', 'F', 'G', 'H', 'I', 'J', 'K', 'L', 'M',
    'N', 'O', 'P', 'Q', 'R', 'S', 'T', 'U', 'V', 'W', 'X', 'Y', 'Z',
    'a', 'b', 'c', 'd', 'e', 'f', 'g', 'h', 'i', 'j', 'k', 'l', 'm',
    'n', 'o', 'p', 'q', 'r', 's', 't', 'u', 'v', 'w', 'x', 'y', 'z',
    '0', '1', '2', '3', '4', '5', '6', '7', '8', '9', '+', '/' ]

/-- Character of a 6-bit group in the base64 alphabet. -/
def b64Char (n : Nat) : Char := b64Alphabet.getD n 'A'

/-- Standard base64 of a byte sequence, with `=` padding and no line
breaks: the behaviour of the Windows `CryptBinaryToStringA` call with
`CRYPT_STRING_BASE64 | CRYPT_STRING_NOCRLF` (addon.cc:224-230).
`CryptBinaryToStringA` is an OS API, modelled by its documented RFC 4648
semantics. -/
def base64EncodeChunks : List Byte → List Char
  | [] => []
  | [b1] =>
      [b64Char (b1.val / 4), b64Char (b1.val % 4 * 16), '=', '=']
  | [b1, b2] =>
      [b64Char (b1.val / 4), b64Char (b1.val % 4 * 16 + b2.val / 16),
       b64Char (b2.val % 16 * 4), '=']
  | b1 :: b2 :: b3 :: rest =>
      b64Char (b1.val / 4) :: b64Char (b1.val % 4 * 16 + b2.val / 16) ::
      b64Char (b2.val % 16 * 4 + b3.val / 64) :: b64Char (b3.val % 64) ::
      base64EncodeChunks rest

/-- The base64url character remapping loop of `Base64UrlEncode`
(addon.cc:235-238): `+` becomes `-` and `/` becomes `_`. -/
def urlMapChar (c : Char) : Char :=
  if c = '+' then '-' else if c = '/' then '_' else c

/-- The trailing-`=` stripping loop of `Base64UrlEncode` (addon.cc:239). -/
def dropTrailingEq (l : List Char) : List Char :=
  (l.reverse.dropWhile (fun c => c = '=')).reverse

/-- Character content of `Base64UrlEncode` (addon.cc:221-241): empty input
short-circuits to empty output; otherwise standard base64 is produced,
remapped to the url alphabet, and trailing padding is stripped. -/
def base64UrlChars (data : List Byte) : List Char :=
  if data = [] then []
  else dropTrailingEq ((base64EncodeChunks data).map urlMapChar)

/-- `Base64UrlEncode` (addon.cc:221-241). -/
def Base64UrlEncode (data : List Byte) : String :=
  String.mk (base64UrlChars data)

/-! ## Client data (addon.cc:243-257) -/

/-- `MakeClientDataJson` (addon.cc:243-257), mirroring the source's
append-by-append construction.  The source builds the document as a byte
vector of the JSON text; the embedding keeps the text.  The addon's
`WideToUtf8`/`Utf8ToWide` conversions are the identity at the level of
text content and are elided. -/
def MakeClientDataJson (type rpId : String) (challenge : List Byte) : String :=
  let challengeB64 := Base64UrlEncode challenge
  let origin := "https://" ++ rpId
  let json := "\x7b"
  let json := json ++ "\"type\":\"" ++ type ++ "\","
  let json := json ++ "\"challenge\":\"" ++ challengeB64 ++ "\","
  let json := json ++ "\"origin\":\"" ++ origin ++ "\","
  let json := json ++ "\"crossOrigin\":false"
  json ++ "\x7d"

/-! ## Window world and resolution (addon.cc:80-129)

The Win32 window state the addon reads is modelled as a static oracle:
the set of live windows (`IsWindow`), the current foreground and active
windows, the desktop window, and the `EnumWindows` enumeration with each
window's owning process id and visibility. -/

/-- One window as `EnumWindows` presents it: its handle, the id of the
owning process (`GetWindowThreadProcessId`), and `IsWindowVisible`. -/
structure WindowInfo where
  hwnd : Hwnd
  pid : Nat
  visible : Bool
deriving DecidableEq, Repr

/-- The Win32 window oracle read by the addon's window heuristics. -/
structure WinEnv where
  /-- Handles for which `IsWindow` reports true. -/
  liveWindows : List Hwnd
  /-- `GetForegroundWindow` (0 when there is none). -/
  foreground : Hwnd
  /-- `GetActiveWindow` (0 when there is none). -/
  active : Hwnd
  /-- `GetDesktopWindow`. -/
  desktop : Hwnd
  /-- The windows `EnumWindows` enumerates, in enumeration order. -/
  allWindows : List WindowInfo
  /-- `GetCurrentProcessId`. -/
  currentPid : Nat
deriving DecidableEq, Repr

/-- The `IsWindow` check against the oracle. -/
def isWindow (win : WinEnv) (h : Hwnd) : Bool := win.liveWindows.contains h

/-- The `EnumWindows` callback of `GetValidHwndForWebAuthn`
(addon.cc:107-120): the enumeration stops at the first window whose owning
process id matches and which is visible; `0` when none is found. -/
def enumFindOwnedVisible (win : WinEnv) : Hwnd :=
  match win.allWindows.find? (fun w => w.pid == win.currentPid && w.visible) with
  | some w => w.hwnd
  | none => 0

/-- `GetValidHwndForWebAuthn` (addon.cc:88-129). -/
def GetValidHwndForWebAuthn (win : WinEnv) (hwnd : Hwnd) : Hwnd :=
  if hwnd != 0 && isWindow win hwnd then hwnd
  else if win.foreground != 0 && isWindow win win.foreground then win.foreground
  else if win.active != 0 && isWindow win win.active then win.active
  else
    let found := enumFindOwnedVisible win
    if found != 0 && isWindow win found then found
    else 0

/-- Modelled from the spec: the §4.3 resolution order as the spec words it
(caller handle if live; else foreground; else active; else "any visible
top-level window owned by the current process, found by enumerating all
windows and filtering by owning-process id"; else null), for comparison
with the source's `GetValidHwndForWebAuthn`. -/
def resolveWindowSpec (win : WinEnv) (hwnd : Hwnd) : Hwnd :=
  if hwnd != 0 && isWindow win hwnd then hwnd
  else if win.foreground != 0 && isWindow win win.foreground then win.foreground
  else if win.active != 0 && isWindow win win.active then win.active
  else
    match win.allWindows.find? (fun w => w.pid == win.currentPid && w.visible) with
    | some w => w.hwnd
    | none => 0

/-- The window re-derivation of `CreateCredentialSync` (addon.cc:619-634):
prefer the resolved handle when it now equals the observed foreground
window, else the foreground window, else the resolved handle, else the
desktop window. -/
def chooseCreateHwnd (win : WinEnv) (hwnd fgHwnd : Hwnd) : Hwnd :=
  let w :=
    if hwnd != 0 && isWindow win hwnd && hwnd == fgHwnd then hwnd
    else if fgHwnd != 0 && isWindow win fgHwnd then fgHwnd
    else if hwnd != 0 && isWindow win hwnd then hwnd
    else 0
  if w == 0 || !(isWindow win w) then win.desktop else w

/-- The window re-derivation of `GetAssertionSync` (addon.cc:737-745):
the current foreground window if non-null, else the resolved handle; when
that is null or dead, the active window; when that is null or dead, the
desktop window. -/
def chooseAssertHwnd (win : WinEnv) (hwnd fgHwnd : Hwnd) : Hwnd :=
  let w1 := if fgHwnd != 0 then fgHwnd else hwnd
  let w2 := if w1 == 0 || !(isWindow win w1) then win.active else w1
  if w2 == 0 || !(isWindow win w2) then win.desktop else w2

/-! ## Process-wide security state (addon.cc:57-78)

`EnsureComSecurityInitialized` guards a single `CoInitializeSecurity`
behind a `std::once_flag` with a `static HRESULT` cache.  The embedding
makes the process state explicit and reports, per call, the observed
HRESULT and whether this call performed the underlying initialization. -/

/-- The process-wide security-context state: not yet initialized, or
terminally resolved with a cached HRESULT. -/
inductive SecState where
  | notYet
  | done (hr : Int)
deriving DecidableEq, Repr

/-- The `RPC_E_TOO_LATE` translation inside the once-block
(addon.cc:72-75): a "too late / already initialized" status is recorded
as `S_OK`. -/
def translateTooLate (hr : Int) : Int :=
  if hr = RPC_E_TOO_LATE then S_OK else hr

/-- One call to `EnsureComSecurityInitialized` (addon.cc:57-78).
`platformHr` is the HRESULT `CoInitializeSecurity` would return if the
underlying initialization runs on this call.  The result is the new
process state, the HRESULT the caller observes, and whether this call
performed the underlying initialization. -/
def EnsureComSecurityInitialized (platformHr : Int) :
    SecState → SecState × Int × Bool
  | SecState.notYet =>
      let r := translateTooLate platformHr
      (SecState.done r, r, true)
  | SecState.done r => (SecState.done r, r, false)

/-- A sequence of `n` calls to `EnsureComSecurityInitialized` starting
from a given state: the list of (observed HRESULT, performed-init) pairs
in call order, and the final state. -/
def runEnsure (platformHr : Int) : Nat → SecState → List (Int × Bool) × SecState
  | 0, s => ([], s)
  | n + 1, s =>
      let step := EnsureComSecurityInitialized platformHr s
      let rest := runEnsure platformHr n step.1
      (step.2 :: rest.1, rest.2)

/-! ## Ceremony engine

The platform authenticator and the ceremony paths.  Each OS interaction
the addon performs is recorded as an `Event`; the platform's responses
come from a `PlatformEnv` oracle.  The async worker `Execute`
(addon.cc:267-416) and the synchronous entry points
`CreateCredentialSync` (addon.cc:489-663) and `GetAssertionSync`
(addon.cc:665-759) are embedded separately, as the source implements
them separately. -/

/-- The options record the addon fills into
`WEBAUTHN_AUTHENTICATOR_MAKE_CREDENTIAL_OPTIONS`, together with the COSE
credential-parameter list passed alongside it. -/
structure MakeCredOptions where
  timeoutMs : Nat
  userVerificationRequirement : Nat
  attestationConveyancePreference : Nat
  authenticatorAttachment : Nat
  coseAlgorithms : List Int
deriving DecidableEq, Repr

/-- The options record the addon fills into
`WEBAUTHN_AUTHENTICATOR_GET_ASSERTION_OPTIONS`, together with the
allow-list of credential ids it carries. -/
structure GetAssertOptions where
  timeoutMs : Nat
  userVerificationRequirement : Nat
  authenticatorAttachment : Nat
  allowCredentials : List (List Byte)
deriving DecidableEq, Repr

/-- The make-credential options as both call sites construct them
(addon.cc:308-334 and addon.cc:559-583, identical field assignments). -/
def builtMakeCredentialOptions : MakeCredOptions :=
  { timeoutMs := 60000
    userVerificationRequirement := WEBAUTHN_USER_VERIFICATION_REQUIREMENT_REQUIRED
    attestationConveyancePreference := WEBAUTHN_ATTESTATION_CONVEYANCE_PREFERENCE_NONE
    authenticatorAttachment := WEBAUTHN_AUTHENTICATOR_ATTACHMENT_PLATFORM
    coseAlgorithms := [WEBAUTHN_COSE_ALGORITHM_ECDSA_P256_WITH_SHA256,
                       WEBAUTHN_COSE_ALGORITHM_RSASSA_PKCS1_V1_5_WITH_SHA256] }

/-- The get-assertion options as both call sites construct them
(addon.cc:390-396 and addon.cc:730-735), around the supplied allow-list. -/
def builtGetAssertionOptions (allow : List (List Byte)) : GetAssertOptions :=
  { timeoutMs := 60000
    userVerificationRequirement := WEBAUTHN_USER_VERIFICATION_REQUIREMENT_REQUIRED
    authenticatorAttachment := WEBAUTHN_AUTHENTICATOR_ATTACHMENT_PLATFORM
    allowCredentials := allow }

/-- OS interactions a ceremony path performs, in order. -/
inductive Event where
  /-- A call to `EnsureComSecurityInitialized` observing the given HRESULT. -/
  | secInit (hr : Int)
  /-- `WebAuthNIsUserVerifyingPlatformAuthenticatorAvailable`. -/
  | probe
  /-- The best-effort `BringToForeground` on the given handle. -/
  | bringToFg (h : Hwnd)
  /-- `WebAuthNAuthenticatorMakeCredential` with the window handle, the
  relying-party id and name, the user name and display name, and the
  options passed to the platform. -/
  | makeCred (h : Hwnd) (rpId rpName userName userDisplayName : String)
      (opts : MakeCredOptions)
  /-- `WebAuthNFreeCredentialAttestation` on the native attestation. -/
  | freeAttestation
  /-- `WebAuthNAuthenticatorGetAssertion` with the window handle, the
  relying-party id, and the options passed to the platform. -/
  | getAssert (h : Hwnd) (rpId : String) (opts : GetAssertOptions)
  /-- `WebAuthNFreeAssertion` on the native assertion. -/
  | freeAssertion
deriving DecidableEq, Repr

/-- The native `WEBAUTHN_CREDENTIAL_ATTESTATION` as the addon reads it:
`credentialId = none` models a null `pbCredentialId`, `some bytes` a
buffer of those bytes (`cbCredentialId` is its length). -/
structure Attestation where
  credentialId : Option (List Byte)
deriving DecidableEq, Repr

/-- The missing-credential-id test of addon.cc:350 / addon.cc:652 on a
(possibly null) attestation pointer:
`!attestation || !attestation->pbCredentialId || attestation->cbCredentialId == 0`. -/
def attMissing : Option Attestation → Bool
  | none => true
  | some a =>
      match a.credentialId with
      | none => true
      | some l => l.isEmpty

/-- The credential-id bytes of a (possibly null) attestation, empty when
missing. -/
def attBytes : Option Attestation → List Byte
  | some a =>
      match a.credentialId with
      | some l => l
      | none => []
  | none => []

/-- The platform authenticator's and RNG's responses for one ceremony. -/
structure PlatformEnv where
  /-- HRESULT of `WebAuthNIsUserVerifyingPlatformAuthenticatorAvailable`. -/
  isAvailableHr : Int
  /-- The availability answer it writes when it succeeds. -/
  isAvailableAnswer : Bool
  /-- Whether `BCryptGenRandom` succeeds for the challenge. -/
  randomChallengeOk : Bool
  /-- Whether `BCryptGenRandom` succeeds for the user id. -/
  randomUserIdOk : Bool
  /-- HRESULT of `WebAuthNAuthenticatorMakeCredential`. -/
  makeCredentialHr : Int
  /-- The attestation pointer it hands back (`none` models null). -/
  makeCredentialResult : Option Attestation
  /-- HRESULT of `WebAuthNAuthenticatorGetAssertion`. -/
  getAssertionHr : Int
  /-- Whether the assertion pointer it hands back is non-null. -/
  getAssertionPresent : Bool
deriving DecidableEq, Repr

/-- `[.freeAttestation]` when the attestation pointer is non-null: the
`if (attestation) WebAuthNFreeCredentialAttestation(attestation)` guard. -/
def freeAttestationIf (o : Option Attestation) : List Event :=
  if o.isSome then [Event.freeAttestation] else []

/-- `[.freeAssertion]` when the assertion pointer is non-null: the
`if (assertion) WebAuthNFreeAssertion(assertion)` guard. -/
def freeAssertionIf (present : Bool) : List Event :=
  if present then [Event.freeAssertion] else []

/-- The `AsyncContext` request fields the async worker dispatches on
(addon.cc:21-39): the operation flags, the ceremony arguments, and the
caller-supplied parent window handle, exactly as the binding functions
(addon.cc:772-859) store them. -/
structure AsyncCtx where
  rpId : String
  rpName : String
  userName : String
  parentHwnd : Hwnd
  credentialId : List Byte
  doIsAvailable : Bool := false
  doMakeCredential : Bool := false
  doGetAssertion : Bool := false
deriving DecidableEq, Repr

/-- The async worker's observable output: the `AsyncContext` result
fields `error`, `bool_result` and `buffer_result`, plus the trace of OS
interactions the worker performed. -/
structure ExecOut where
  error : String
  boolResult : Bool
  bufferResult : List Byte
  trace : List Event
deriving DecidableEq, Repr

/-- The async worker `Execute` (addon.cc:267-416), run by the task bridge
on a worker thread.  It dispatches on the operation flags in source
order, checks `rp_id` emptiness before either platform ceremony, and —
notably — performs no COM-security initialization and no window
resolution: the platform calls receive `ctx->parent_hwnd` as supplied. -/
def Execute (env : PlatformEnv) (ctx : AsyncCtx) : ExecOut :=
  if ctx.doIsAvailable then
    if failed env.isAvailableHr then
      { error := "WebAuthNIsUserVerifyingPlatformAuthenticatorAvailable failed: "
          ++ HResultToString env.isAvailableHr,
        boolResult := false, bufferResult := [], trace := [Event.probe] }
    else
      { error := "", boolResult := env.isAvailableAnswer,
        bufferResult := [], trace := [Event.probe] }
  else if ctx.rpId = "" then
    { error := "rpId is required", boolResult := false,
      bufferResult := [], trace := [] }
  else if ctx.doMakeCredential then
    if !(env.randomChallengeOk && env.randomUserIdOk) then
      { error := "Failed to generate random bytes", boolResult := false,
        bufferResult := [], trace := [] }
    else
      let rpNameUsed := if ctx.rpName = "" then ctx.rpId else ctx.rpName
      let userNameUsed := if ctx.userName = "" then "Netcatty" else ctx.userName
      let ev := Event.makeCred ctx.parentHwnd ctx.rpId rpNameUsed
        userNameUsed userNameUsed builtMakeCredentialOptions
      if failed env.makeCredentialHr then
        { error := "WebAuthNAuthenticatorMakeCredential failed: "
            ++ HResultToString env.makeCredentialHr,
          boolResult := false, bufferResult := [],
          trace := ev :: freeAttestationIf env.makeCredentialResult }
      else if attMissing env.makeCredentialResult then
        { error := "Credential attestation missing credentialId",
          boolResult := false, bufferResult := [],
          trace := ev :: freeAttestationIf env.makeCredentialResult }
      else
        { error := "", boolResult := false,
          bufferResult := attBytes env.makeCredentialResult,
          trace := [ev, Event.freeAttestation] }
  else if ctx.doGetAssertion then
    if ctx.credentialId.isEmpty then
      { error := "credentialId is required", boolResult := false,
        bufferResult := [], trace := [] }
    else if !env.randomChallengeOk then
      { error := "Failed to generate random challenge", boolResult := false,
        bufferResult := [], trace := [] }
    else
      let ev := Event.getAssert ctx.parentHwnd ctx.rpId
        (builtGetAssertionOptions [ctx.credentialId])
      if failed env.getAssertionHr then
        { error := "WebAuthNAuthenticatorGetAssertion failed: "
            ++ HResultToString env.getAssertionHr,
          boolResult := false, bufferResult := [],
          trace := ev :: freeAssertionIf env.getAssertionPresent }
      else
        { error := "", boolResult := true, bufferResult := [],
          trace := ev :: freeAssertionIf env.getAssertionPresent }
  else
    { error := "Invalid operation", boolResult := false,
      bufferResult := [], trace := [] }

/-- Outcome of a synchronous entry point: a resolved buffer, a resolved
boolean, or a thrown error. -/
inductive Outcome where
  | ok (buffer : List Byte)
  | okBool (b : Bool)
  | err (msg : String)
deriving DecidableEq, Repr

/-- The environment of one synchronous call: the window oracle, whether
the per-thread `ScopedCoInit` succeeds, the HRESULT the process-wide
`CoInitializeSecurity` would return if this call performs it, the
platform responses, and the foreground window as sampled at the three
later `GetForegroundWindow` call sites (the foreground can have changed
by then, so each sample is its own oracle field). -/
structure SyncEnv where
  win : WinEnv
  comInitOk : Bool
  secPlatformHr : Int
  plat : PlatformEnv
  /-- `GetForegroundWindow` at addon.cc:592 (after `BringToForeground`). -/
  fgAfterBring : Hwnd
  /-- `GetForegroundWindow` at addon.cc:616 (after the forcing block). -/
  fgAfterForce : Hwnd
  /-- `GetForegroundWindow` at addon.cc:738 (in `GetAssertionSync`). -/
  fgAtAssertion : Hwnd
deriving DecidableEq, Repr

/-- The window `CreateCredentialSync` passes to the platform, as a
function of the environment and the caller-supplied handle: the
`GetValidHwndForWebAuthn` resolution (addon.cc:516) followed by the
foreground re-derivation (addon.cc:588-634). -/
def syncCreatePlatformHwnd (env : SyncEnv) (callerHwnd : Hwnd) : Hwnd :=
  let hwnd := GetValidHwndForWebAuthn env.win callerHwnd
  let fgHwnd := if hwnd != 0 && isWindow env.win hwnd
    then env.fgAfterForce else env.fgAfterBring
  chooseCreateHwnd env.win hwnd fgHwnd

/-- The window `GetAssertionSync` passes to the platform
(addon.cc:690 and addon.cc:737-745). -/
def syncAssertPlatformHwnd (env : SyncEnv) (callerHwnd : Hwnd) : Hwnd :=
  chooseAssertHwnd env.win (GetValidHwndForWebAuthn env.win callerHwnd)
    env.fgAtAssertion

/-- `CreateCredentialSync` (addon.cc:489-663), after the N-API argument
unmarshalling (boundary glue): the caller-supplied handle is already
decoded to a `Hwnd` (`0` for absent/malformed, as `ReadHwndFromBuffer`
yields).  Returns the outcome, the trace of OS interactions, and the
updated process-wide security state. -/
def CreateCredentialSync (env : SyncEnv) (sec : SecState)
    (rpId rpName userName : String) (callerHwnd : Hwnd) :
    Outcome × List Event × SecState :=
  let hwnd := GetValidHwndForWebAuthn env.win callerHwnd
  if !env.comInitOk then (Outcome.err "COM initialization failed", [], sec)
  else
    let step := EnsureComSecurityInitialized env.secPlatformHr sec
    let sec' := step.1
    let hr := step.2.1
    if failed hr then
      (Outcome.err ("CoInitializeSecurity failed: " ++ HResultToString hr),
       [Event.secInit hr], sec')
    else
      let pre := [Event.secInit hr, Event.bringToFg hwnd]
      if !env.plat.randomChallengeOk then
        (Outcome.err "Failed to generate random challenge", pre, sec')
      else if !env.plat.randomUserIdOk then
        (Outcome.err "Failed to generate random userId", pre, sec')
      else
        let rpNameUsed := if rpName = "" then rpId else rpName
        let userNameUsed := if userName = "" then "Netcatty" else userName
        let fgHwnd := if hwnd != 0 && isWindow env.win hwnd
          then env.fgAfterForce else env.fgAfterBring
        let webauthnHwnd := chooseCreateHwnd env.win hwnd fgHwnd
        let ev := Event.makeCred webauthnHwnd rpId rpNameUsed
          userNameUsed userNameUsed builtMakeCredentialOptions
        if failed env.plat.makeCredentialHr then
          (Outcome.err ("WebAuthNAuthenticatorMakeCredential failed: "
              ++ HResultToString env.plat.makeCredentialHr),
           pre ++ ev :: freeAttestationIf env.plat.makeCredentialResult, sec')
        else if attMissing env.plat.makeCredentialResult then
          (Outcome.err "Credential attestation missing credentialId",
           pre ++ ev :: freeAttestationIf env.plat.makeCredentialResult, sec')
        else
          (Outcome.ok (attBytes env.plat.makeCredentialResult),
           pre ++ [ev, Event.freeAttestation], sec')

/-- `GetAssertionSync` (addon.cc:665-759), after the N-API argument
unmarshalling.  Note the source checks neither `rpId` nor `credentialId`
for emptiness on this path. -/
def GetAssertionSync (env : SyncEnv) (sec : SecState)
    (rpId : String) (credId : List Byte) (callerHwnd : Hwnd) :
    Outcome × List Event × SecState :=
  let hwnd := GetValidHwndForWebAuthn env.win callerHwnd
  if !env.comInitOk then (Outcome.err "COM initialization failed", [], sec)
  else
    let step := EnsureComSecurityInitialized env.secPlatformHr sec
    let sec' := step.1
    let hr := step.2.1
    if failed hr then
      (Outcome.err ("CoInitializeSecurity failed: " ++ HResultToString hr),
       [Event.secInit hr], sec')
    else
      let pre := [Event.secInit hr, Event.bringToFg hwnd]
      if !env.plat.randomChallengeOk then
        (Outcome.err "Failed to generate random challenge", pre, sec')
      else
        let webauthnHwnd := chooseAssertHwnd env.win hwnd env.fgAtAssertion
        let ev := Event.getAssert webauthnHwnd rpId
          (builtGetAssertionOptions [credId])
        if failed env.plat.getAssertionHr then
          (Outcome.err ("WebAuthNAuthenticatorGetAssertion failed: "
              ++ HResultToString env.plat.getAssertionHr),
           pre ++ ev :: freeAssertionIf env.plat.getAssertionPresent, sec')
        else
          (Outcome.okBool true,
           pre ++ ev :: freeAssertionIf env.plat.getAssertionPresent, sec')

/-! ## Trace observations

Helpers reading a trace, used to state the claims. -/

/-- Number of `WebAuthNFreeCredentialAttestation` calls in a trace. -/
def freeAttCount : List Event → Nat
  | [] => 0
  | Event.freeAttestation :: tr => freeAttCount tr + 1
  | _ :: tr => freeAttCount tr

/-- Number of `WebAuthNFreeAssertion` calls in a trace. -/
def freeAssertCount : List Event → Nat
  | [] => 0
  | Event.freeAssertion :: tr => freeAssertCount tr + 1
  | _ :: tr => freeAssertCount tr

/-- Whether a trace contains a call to `EnsureComSecurityInitialized`. -/
def traceHasSecInit : List Event → Bool
  | [] => false
  | Event.secInit _ :: _ => true
  | _ :: tr => traceHasSecInit tr

/-- Whether a trace contains a `WebAuthNAuthenticatorMakeCredential` call. -/
def traceHasMakeCred : List Event → Bool
  | [] => false
  | Event.makeCred _ _ _ _ _ _ :: _ => true
  | _ :: tr => traceHasMakeCred tr

/-- Whether a trace contains a `WebAuthNAuthenticatorGetAssertion` call. -/
def traceHasGetAssert : List Event → Bool
  | [] => false
  | Event.getAssert _ _ _ :: _ => true
  | _ :: tr => traceHasGetAssert tr

/-- Whether the first event of a trace is a successful
`EnsureComSecurityInitialized` observation. -/
def secInitSucceededFirst (tr : List Event) : Bool :=
  match tr.head? with
  | some (Event.secInit hr) => succeeded hr
  | _ => false

/-- The window handles handed to `WebAuthNAuthenticatorMakeCredential`
in a trace, in call order. -/
def makeCredHwnds : List Event → List Hwnd
  | [] => []
  | Event.makeCred h _ _ _ _ _ :: tr => h :: makeCredHwnds tr
  | _ :: tr => makeCredHwnds tr

/-- The window handles handed to `WebAuthNAuthenticatorGetAssertion`
in a trace, in call order. -/
def getAssertHwnds : List Event → List Hwnd
  | [] => []
  | Event.getAssert h _ _ :: tr => h :: getAssertHwnds tr
  | _ :: tr => getAssertHwnds tr

/-- The options handed to `WebAuthNAuthenticatorMakeCredential` in a
trace, in call order. -/
def makeCredOptsOf : List Event → List MakeCredOptions
  | [] => []
  | Event.makeCred _ _ _ _ _ o :: tr => o :: makeCredOptsOf tr
  | _ :: tr => makeCredOptsOf tr

/-- The options handed to `WebAuthNAuthenticatorGetAssertion` in a
trace, in call order. -/
def getAssertOptsOf : List Event → List GetAssertOptions
  | [] => []
  | Event.getAssert _ _ o :: tr => o :: getAssertOptsOf tr
  | _ :: tr => getAssertOptsOf tr

/-- The (relying-party name, user name, user display name) triples handed
to `WebAuthNAuthenticatorMakeCredential` in a trace, in call order. -/
def makeCredNames : List Event → List (String × String × String)
  | [] => []
  | Event.makeCred _ _ rn un ud _ :: tr => (rn, un, ud) :: makeCredNames tr
  | _ :: tr => makeCredNames tr

/-- The argument-validation error messages of the async worker: the
addon's `InvalidArgument`-class failures. -/
def isInvalidArgMsg (s : String) : Bool :=
  s == "rpId is required" || s == "credentialId is required"

/-- Whether a synchronous create call gets past COM init, security init
and both random generations, i.e. reaches the platform call. -/
def syncCreatePreflightOk (env : SyncEnv) (sec : SecState) : Bool :=
  env.comInitOk
    && !(failed (EnsureComSecurityInitialized env.secPlatformHr sec).2.1)
    && env.plat.randomChallengeOk && env.plat.randomUserIdOk

/-- Whether a synchronous assertion call gets past COM init, security
init and the challenge generation, i.e. reaches the platform call. -/
def syncAssertPreflightOk (env : SyncEnv) (sec : SecState) : Bool :=
  env.comInitOk
    && !(failed (EnsureComSecurityInitialized env.secPlatformHr sec).2.1)
    && env.plat.randomChallengeOk

/-- The error string a create ceremony reports once the platform call
returned, as a function of the platform's HRESULT and attestation:
platform failure text on a failed HRESULT, the distinct missing-id text
when success came back without a usable credential id, empty otherwise. -/
def createResultError (hr : Int) (att : Option Attestation) : String :=
  if failed hr then
    "WebAuthNAuthenticatorMakeCredential failed: " ++ HResultToString hr
  else if attMissing att then "Credential attestation missing credentialId"
  else ""

/-- The credential-id buffer a create ceremony reports: the attestation's
bytes exactly on clean success, empty otherwise. -/
def createResultBuffer (hr : Int) (att : Option Attestation) : List Byte :=
  if failed hr then []
  else if attMissing att then []
  else attBytes att

/-! ## Sample oracle environments

Concrete worlds used by the witness and counterexample theorems. -/

/-- A window world with no live windows at all. -/
def winEmpty : WinEnv :=
  { liveWindows := [], foreground := 0, active := 0, desktop := 9,
    allWindows := [], currentPid := 1 }

/-- A window world with one visible live window (handle 7) owned by the
current process, discoverable only by enumeration. -/
def winSample : WinEnv :=
  { liveWindows := [7], foreground := 0, active := 0, desktop := 9,
    allWindows := [{ hwnd := 7, pid := 1, visible := true }], currentPid := 1 }

/-- A platform where every call succeeds and creation returns the
one-byte credential id `[1]`. -/
def platOk : PlatformEnv :=
  { isAvailableHr := 0, isAvailableAnswer := true,
    randomChallengeOk := true, randomUserIdOk := true,
    makeCredentialHr := 0,
    makeCredentialResult := some { credentialId := some [1] },
    getAssertionHr := 0, getAssertionPresent := true }

/-- A synchronous environment where everything succeeds and no window is
live. -/
def syncEnvOk : SyncEnv :=
  { win := winEmpty, comInitOk := true, secPlatformHr := 0, plat := platOk,
    fgAfterBring := 0, fgAfterForce := 0, fgAtAssertion := 0 }

/-! ## Helper lemmas -/

/-- A list's `getD` is an element of the list or the fallback. -/
theorem getD_mem_or_default (l : List Char) (n : Nat) (d : Char) :
    l.getD n d ∈ l ∨ l.getD n d = d := by
  rcases h : l[n]? with _ | a
  · right; simp [List.getD_eq_getElem?_getD, h]
  · left
    have hm := List.getElem?_mem h
    simpa [List.getD_eq_getElem?_getD, h] using hm

/-- Every output of `b64Char` is an alphabet character or the fallback. -/
theorem b64Char_mem_or_A (n : Nat) : b64Char n ∈ b64Alphabet ∨ b64Char n = 'A' :=
  getD_mem_or_default b64Alphabet n 'A'

/-- `b64Char` never yields the padding character. -/
theorem b64Char_ne_pad (n : Nat) : b64Char n ≠ '=' := by
  rcases b64Char_mem_or_A n with h | h
  · intro he
    rw [he] at h
    revert h
    decide
  · rw [h]
    decide

/-- The standard-base64 output splits into a padding-free prefix followed
by a run of `=` padding. -/
theorem base64_split (bs : List Byte) :
    ∃ l k, base64EncodeChunks bs = l ++ List.replicate k '=' ∧ ∀ c ∈ l, c ≠ '=' := by
  match bs with
  | [] => exact ⟨[], 0, rfl, by simp⟩
  | [b1] =>
      refine ⟨[b64Char (b1.val / 4), b64Char (b1.val % 4 * 16)], 2, rfl, ?_⟩
      intro c hc
      simp only [List.mem_cons, List.not_mem_nil, or_false] at hc
      rcases hc with h | h <;> (subst h; exact b64Char_ne_pad _)
  | [b1, b2] =>
      refine ⟨[b64Char (b1.val / 4), b64Char (b1.val % 4 * 16 + b2.val / 16),
        b64Char (b2.val % 16 * 4)], 1, rfl, ?_⟩
      intro c hc
      simp only [List.mem_cons, List.not_mem_nil, or_false] at hc
      rcases hc with h | h | h <;> (subst h; exact b64Char_ne_pad _)
  | b1 :: b2 :: b3 :: rest =>
      obtain ⟨l, k, h1, h2⟩ := base64_split rest
      refine ⟨b64Char (b1.val / 4) :: b64Char (b1.val % 4 * 16 + b2.val / 16) ::
        b64Char (b2.val % 16 * 4 + b3.val / 64) :: b64Char (b3.val % 64) :: l, k, ?_, ?_⟩
      · simp [base64EncodeChunks, h1]
      · intro c hc
        simp only [List.mem_cons] at hc
        rcases hc with h | h | h | h | h
        · subst h; exact b64Char_ne_pad _
        · subst h; exact b64Char_ne_pad _
        · subst h; exact b64Char_ne_pad _
        · subst h; exact b64Char_ne_pad _
        · exact h2 c h
termination_by bs.length

/-- The url remapping never produces `+`. -/
theorem urlMapChar_ne_plus (c : Char) : urlMapChar c ≠ '+' := by
  unfold urlMapChar
  split_ifs with h1 h2
  · decide
  · decide
  · exact h1

/-- The url remapping never produces `/`. -/
theorem urlMapChar_ne_slash (c : Char) : urlMapChar c ≠ '/' := by
  unfold urlMapChar
  split_ifs with h1 h2
  · decide
  · decide
  · exact h2

/-- The url remapping yields `=` only on `=`. -/
theorem urlMapChar_ne_pad (c : Char) (hc : c ≠ '=') : urlMapChar c ≠ '=' := by
  unfold urlMapChar
  split_ifs with h1 h2
  · decide
  · decide
  · exact hc

/-- The url remapping fixes `=`. -/
theorem urlMapChar_pad : urlMapChar '=' = '=' := by decide

/-- Stripping trailing `=` from a padding-free list followed by a padding
run recovers the padding-free list. -/
theorem dropTrailingEq_append_replicate (A : List Char) (k : Nat)
    (hA : ∀ c ∈ A, c ≠ '=') :
    dropTrailingEq (A ++ List.replicate k '=') = A := by
  unfold dropTrailingEq
  rw [List.reverse_append, List.reverse_replicate, List.dropWhile_append]
  have h1 : List.dropWhile (fun c => c = '=') (List.replicate k '=') = [] := by
    simp
  have h2 : List.dropWhile (fun c => c = '=') A.reverse = A.reverse := by
    cases hrev : A.reverse with
    | nil => rfl
    | cons a t =>
        have ha : a ∈ A := by
          have : a ∈ A.reverse := by rw [hrev]; exact List.mem_cons_self a t
          simpa using this
        rw [List.dropWhile_cons]
        simp [hA a ha]
  rw [h1, h2]
  simp

/-- Every character of `base64UrlChars` is the url remapping of a
non-padding character. -/
theorem base64UrlChars_chars (bs : List Byte) :
    ∀ x ∈ base64UrlChars bs, ∃ c, x = urlMapChar c ∧ c ≠ '=' := by
  intro x hx
  unfold base64UrlChars at hx
  split_ifs at hx with hbs
  · simp at hx
  · obtain ⟨l, k, h1, h2⟩ := base64_split bs
    rw [h1, List.map_append] at hx
    have hrep : (List.replicate k '=').map urlMapChar = List.replicate k '=' := by
      simp [List.map_replicate, urlMapChar_pad]
    rw [hrep, dropTrailingEq_append_replicate (l.map urlMapChar) k ?hfree] at hx
    case hfree =>
      intro c hc
      obtain ⟨c0, hc0, hc0e⟩ := List.mem_map.mp hc
      rw [← hc0e]
      exact urlMapChar_ne_pad c0 (h2 c0 hc0)
    obtain ⟨c0, hc0, hc0e⟩ := List.mem_map.mp hx
    exact ⟨c0, hc0e.symm, h2 c0 hc0⟩

/-- Calls after the state is terminal observe the cached result and never
re-run the underlying initialization. -/
theorem runEnsure_from_done (hr r : Int) (n : Nat) :
    (runEnsure hr n (SecState.done r)).1 = List.replicate n (r, false) := by
  induction n with
  | zero => rfl
  | succ m ih =>
      simp [runEnsure, EnsureComSecurityInitialized, ih, List.replicate_succ]

/-- C3: for every sequence of calls to `EnsureComSecurityInitialized`,
only the first call performs the underlying `CoInitializeSecurity`, every
call observes the same cached terminal result (in particular a failure is
never re-attempted), and a platform `RPC_E_TOO_LATE` status is recorded
and reported as success. -/
theorem ensureComSecurity_once_and_cached (hr : Int) (n : Nat) :
    (runEnsure hr (n + 1) SecState.notYet).1 =
      (translateTooLate hr, true) :: List.replicate n (translateTooLate hr, false)
    ∧ translateTooLate RPC_E_TOO_LATE = S_OK
    ∧ succeeded S_OK = true := by
  refine ⟨?_, by decide, by decide⟩
  simp [runEnsure, EnsureComSecurityInitialized, runEnsure_from_done]

/-- C5: `MakeClientDataJson` is a pure function (hence byte-identical
across repeated calls at fixed arguments) producing exactly the four
fields `type`, `challenge`, `origin`, `crossOrigin` in that key order,
with the challenge base64url-encoded, the origin `"https://"` followed by
the relying-party id, and `crossOrigin` the literal `false`. -/
theorem makeClientDataJson_canonical (type rpId : String) (challenge : List Byte)
    (_htype : type = "webauthn.create" ∨ type = "webauthn.get") :
    MakeClientDataJson type rpId challenge =
      "\x7b" ++ "\"type\":\"" ++ type ++ "\"," ++ "\"challenge\":\""
        ++ Base64UrlEncode challenge ++ "\"," ++ "\"origin\":\""
        ++ ("https://" ++ rpId) ++ "\"," ++ "\"crossOrigin\":false" ++ "\x7d" := by
  simp [MakeClientDataJson, String.append_assoc]

/-- Witness for C5 at the creation ceremony type, `example.com`, and the
empty challenge. -/
theorem makeClientDataJson_canonical_witness :
    ("webauthn.create" = "webauthn.create" ∨ "webauthn.create" = "webauthn.get")
    ∧ MakeClientDataJson "webauthn.create" "example.com" [] =
        "\x7b" ++ "\"type\":\"" ++ "webauthn.create" ++ "\"," ++ "\"challenge\":\""
          ++ Base64UrlEncode [] ++ "\"," ++ "\"origin\":\""
          ++ ("https://" ++ "example.com") ++ "\"," ++ "\"crossOrigin\":false" ++ "\x7d" :=
  ⟨Or.inl rfl,
   makeClientDataJson_canonical "webauthn.create" "example.com" [] (Or.inl rfl)⟩

/-- C6: `Base64UrlEncode` is total and deterministic (it is a function of
its input alone), its output never contains `+`, `/` or `=` (standard
base64 with `+` remapped to `-`, `/` remapped to `_`, and trailing `=`
padding stripped), and the empty input produces the empty output. -/
theorem base64UrlEncode_props (bs : List Byte) :
    '+' ∉ (Base64UrlEncode bs).data
    ∧ '/' ∉ (Base64UrlEncode bs).data
    ∧ '=' ∉ (Base64UrlEncode bs).data
    ∧ Base64UrlEncode [] = "" := by
  refine ⟨?_, ?_, ?_, rfl⟩
  · intro hx
    obtain ⟨c, hce, _⟩ := base64UrlChars_chars bs '+' hx
    exact urlMapChar_ne_plus c hce.symm
  · intro hx
    obtain ⟨c, hce, _⟩ := base64UrlChars_chars bs '/' hx
    exact urlMapChar_ne_slash c hce.symm
  · intro hx
    obtain ⟨c, hce, hcp⟩ := base64UrlChars_chars bs '=' hx
    exact urlMapChar_ne_pad c hcp hce.symm

/-- C7: `GetValidHwndForWebAuthn` returns the first success in the
order: live caller-supplied handle, live foreground window, live active
window, visible top-level window owned by the current process found by
enumeration, null — i.e. it agrees with the resolution order as the spec
words it, in every window world where a visible enumerated window of the
process is live (the code re-checks `IsWindow` on the enumerated window;
the hypothesis states that consistency of the world). -/
theorem getValidHwnd_matches_spec (win : WinEnv) (hwnd : Hwnd)
    (hcons : ∀ w ∈ win.allWindows, w.pid = win.currentPid → w.visible = true →
      w.hwnd = 0 ∨ isWindow win w.hwnd = true) :
    GetValidHwndForWebAuthn win hwnd = resolveWindowSpec win hwnd := by
  rcases hfind : win.allWindows.find? (fun w => w.pid == win.currentPid && w.visible)
    with _ | w
  · simp [GetValidHwndForWebAuthn, resolveWindowSpec, enumFindOwnedVisible, hfind]
  · have hp := List.find?_some hfind
    have hm := List.mem_of_find?_eq_some hfind
    simp only [Bool.and_eq_true, beq_iff_eq] at hp
    rcases hcons w hm hp.1 hp.2 with hz | hlive
    · simp [GetValidHwndForWebAuthn, resolveWindowSpec, enumFindOwnedVisible, hfind, hz]
    · by_cases hz0 : w.hwnd = 0
      · simp [GetValidHwndForWebAuthn, resolveWindowSpec, enumFindOwnedVisible,
          hfind, hz0]
      · simp [GetValidHwndForWebAuthn, resolveWindowSpec, enumFindOwnedVisible,
          hfind, hlive, hz0]

/-- Witness for C7: a dead caller handle, no foreground or active window,
and one visible live window of the process found by enumeration. -/
theorem getValidHwnd_matches_spec_witness :
    (∀ w ∈ winSample.allWindows, w.pid = winSample.currentPid → w.visible = true →
      w.hwnd = 0 ∨ isWindow winSample w.hwnd = true)
    ∧ GetValidHwndForWebAuthn winSample 3 = resolveWindowSpec winSample 3 :=
  ⟨by decide, getValidHwnd_matches_spec winSample 3 (by decide)⟩

/-! ## Model lemmas -/

/-- A non-failed HRESULT is a succeeded one. -/
theorem succeeded_of_not_failed (hr : Int) (h : failed hr = false) :
    succeeded hr = true := by
  simp only [failed, decide_eq_false_iff_not, not_lt] at h
  simpa [succeeded] using h

/-- The conditional attestation free holds no security-init event. -/
theorem traceHasSecInit_freeAttIf (o : Option Attestation) :
    traceHasSecInit (freeAttestationIf o) = false := by
  cases o <;> rfl

/-- The conditional assertion free holds no security-init event. -/
theorem traceHasSecInit_freeAssertIf (b : Bool) :
    traceHasSecInit (freeAssertionIf b) = false := by
  cases b <;> rfl

/-- The conditional attestation free holds no platform-call event. -/
theorem makeCredHwnds_freeAttIf (o : Option Attestation) :
    makeCredHwnds (freeAttestationIf o) = [] := by
  cases o <;> rfl

/-- The conditional assertion free holds no platform-call event. -/
theorem getAssertHwnds_freeAssertIf (b : Bool) :
    getAssertHwnds (freeAssertionIf b) = [] := by
  cases b <;> rfl

/-- The conditional attestation free holds no make-credential event. -/
theorem makeCredHwnds_freeAssertIf (b : Bool) :
    makeCredHwnds (freeAssertionIf b) = [] := by
  cases b <;> rfl

/-- The conditional assertion free holds no get-assertion event. -/
theorem getAssertHwnds_freeAttIf (o : Option Attestation) :
    getAssertHwnds (freeAttestationIf o) = [] := by
  cases o <;> rfl

/-- The async worker never touches the process-wide security
initialization: no trace it produces contains a `secInit` event. -/
theorem execute_no_secInit (env : PlatformEnv) (ctx : AsyncCtx) :
    traceHasSecInit (Execute env ctx).trace = false := by
  unfold Execute
  split_ifs <;>
    simp [traceHasSecInit, traceHasSecInit_freeAttIf, traceHasSecInit_freeAssertIf]

/-- Every `WebAuthNAuthenticatorMakeCredential` call the async worker
makes receives the caller-supplied `parent_hwnd` unchanged. -/
theorem execute_makeCred_hwnd (env : PlatformEnv) (ctx : AsyncCtx) :
    (makeCredHwnds (Execute env ctx).trace).all
      (fun h => h == ctx.parentHwnd) = true := by
  unfold Execute
  split_ifs <;>
    simp [makeCredHwnds, makeCredHwnds_freeAttIf, makeCredHwnds_freeAssertIf]

/-- Every `WebAuthNAuthenticatorGetAssertion` call the async worker
makes receives the caller-supplied `parent_hwnd` unchanged. -/
theorem execute_getAssert_hwnd (env : PlatformEnv) (ctx : AsyncCtx) :
    (getAssertHwnds (Execute env ctx).trace).all
      (fun h => h == ctx.parentHwnd) = true := by
  unfold Execute
  split_ifs <;>
    simp [getAssertHwnds, getAssertHwnds_freeAttIf, getAssertHwnds_freeAssertIf]

/-- A successful create that got past the missing-id check received a
non-null attestation pointer. -/
theorem isSome_of_not_attMissing (o : Option Attestation)
    (h : attMissing o = false) : o.isSome = true := by
  cases o with
  | none => simp [attMissing] at h
  | some a => rfl

/-- Trace of `CreateCredentialSync` when the call gets past COM init,
security init and both random generations: the security-init
observation, the best-effort foregrounding of the resolved handle, the
single platform call on the re-derived handle with the source's fixed
options and name substitutions, then the conditional attestation free. -/
theorem createSync_trace_of_preflight (env : SyncEnv) (sec : SecState)
    (rpId rpName userName : String) (hC : Hwnd)
    (hok : syncCreatePreflightOk env sec = true) :
    (CreateCredentialSync env sec rpId rpName userName hC).2.1 =
      Event.secInit (EnsureComSecurityInitialized env.secPlatformHr sec).2.1
        :: Event.bringToFg (GetValidHwndForWebAuthn env.win hC)
        :: Event.makeCred (syncCreatePlatformHwnd env hC) rpId
            (if rpName = "" then rpId else rpName)
            (if userName = "" then "Netcatty" else userName)
            (if userName = "" then "Netcatty" else userName)
            builtMakeCredentialOptions
        :: freeAttestationIf env.plat.makeCredentialResult := by
  unfold syncCreatePreflightOk at hok
  simp only [Bool.and_eq_true] at hok
  obtain ⟨⟨⟨hcom, hsec⟩, hrc⟩, hru⟩ := hok
  rw [Bool.not_eq_true'] at hsec
  unfold CreateCredentialSync
  by_cases hf : failed env.plat.makeCredentialHr = true
  · simp [hcom, hsec, hrc, hru, hf, syncCreatePlatformHwnd]
  · rw [Bool.not_eq_true] at hf
    by_cases hm : attMissing env.plat.makeCredentialResult = true
    · simp [hcom, hsec, hrc, hru, hf, hm, syncCreatePlatformHwnd]
    · rw [Bool.not_eq_true] at hm
      have hs := isSome_of_not_attMissing env.plat.makeCredentialResult hm
      simp [hcom, hsec, hrc, hru, hf, hm, syncCreatePlatformHwnd,
        freeAttestationIf, hs]

/-- Outcome of `CreateCredentialSync` when the call gets past COM init,
security init and both random generations. -/
theorem createSync_outcome_of_preflight (env : SyncEnv) (sec : SecState)
    (rpId rpName userName : String) (hC : Hwnd)
    (hok : syncCreatePreflightOk env sec = true) :
    (CreateCredentialSync env sec rpId rpName userName hC).1 =
      (if failed env.plat.makeCredentialHr then
        Outcome.err ("WebAuthNAuthenticatorMakeCredential failed: "
          ++ HResultToString env.plat.makeCredentialHr)
      else if attMissing env.plat.makeCredentialResult then
        Outcome.err "Credential attestation missing credentialId"
      else Outcome.ok (attBytes env.plat.makeCredentialResult)) := by
  unfold syncCreatePreflightOk at hok
  simp only [Bool.and_eq_true] at hok
  obtain ⟨⟨⟨hcom, hsec⟩, hrc⟩, hru⟩ := hok
  rw [Bool.not_eq_true'] at hsec
  unfold CreateCredentialSync
  by_cases hf : failed env.plat.makeCredentialHr = true
  · simp [hcom, hsec, hrc, hru, hf]
  · rw [Bool.not_eq_true] at hf
    by_cases hm : attMissing env.plat.makeCredentialResult = true
    · simp [hcom, hsec, hrc, hru, hf, hm]
    · rw [Bool.not_eq_true] at hm
      simp [hcom, hsec, hrc, hru, hf, hm]

/-- A `CreateCredentialSync` trace that contains the platform call got
past COM init, security init and both random generations. -/
theorem createSync_makeCred_implies_preflight (env : SyncEnv) (sec : SecState)
    (rpId rpName userName : String) (hC : Hwnd)
    (hmc : traceHasMakeCred
      (CreateCredentialSync env sec rpId rpName userName hC).2.1 = true) :
    syncCreatePreflightOk env sec = true := by
  unfold CreateCredentialSync at hmc
  by_cases hcom : env.comInitOk = true
  · by_cases hsec :
      failed (EnsureComSecurityInitialized env.secPlatformHr sec).2.1 = true
    · simp [hcom, hsec, traceHasMakeCred] at hmc
    · rw [Bool.not_eq_true] at hsec
      by_cases hrc : env.plat.randomChallengeOk = true
      · by_cases hru : env.plat.randomUserIdOk = true
        · unfold syncCreatePreflightOk
          simp [hcom, hsec, hrc, hru]
        · rw [Bool.not_eq_true] at hru
          simp [hcom, hsec, hrc, hru, traceHasMakeCred] at hmc
      · rw [Bool.not_eq_true] at hrc
        simp [hcom, hsec, hrc, traceHasMakeCred] at hmc
  · rw [Bool.not_eq_true] at hcom
    simp [hcom, traceHasMakeCred] at hmc

/-- Trace of `GetAssertionSync` when the call gets past COM init,
security init and the challenge generation: the security-init
observation, the best-effort foregrounding of the resolved handle, the
single platform call on the re-derived handle with the source's fixed
options and singleton allow-list, then the conditional assertion free. -/
theorem assertSync_trace_of_preflight (env : SyncEnv) (sec : SecState)
    (rpId : String) (credId : List Byte) (hA : Hwnd)
    (hok : syncAssertPreflightOk env sec = true) :
    (GetAssertionSync env sec rpId credId hA).2.1 =
      Event.secInit (EnsureComSecurityInitialized env.secPlatformHr sec).2.1
        :: Event.bringToFg (GetValidHwndForWebAuthn env.win hA)
        :: Event.getAssert (syncAssertPlatformHwnd env hA) rpId
            (builtGetAssertionOptions [credId])
        :: freeAssertionIf env.plat.getAssertionPresent := by
  unfold syncAssertPreflightOk at hok
  simp only [Bool.and_eq_true] at hok
  obtain ⟨⟨hcom, hsec⟩, hrc⟩ := hok
  rw [Bool.not_eq_true'] at hsec
  unfold GetAssertionSync
  by_cases hf : failed env.plat.getAssertionHr = true
  · simp [hcom, hsec, hrc, hf, syncAssertPlatformHwnd]
  · rw [Bool.not_eq_true] at hf
    simp [hcom, hsec, hrc, hf, syncAssertPlatformHwnd]

/-- Outcome of `GetAssertionSync` when the call gets past COM init,
security init and the challenge generation. -/
theorem assertSync_outcome_of_preflight (env : SyncEnv) (sec : SecState)
    (rpId : String) (credId : List Byte) (hA : Hwnd)
    (hok : syncAssertPreflightOk env sec = true) :
    (GetAssertionSync env sec rpId credId hA).1 =
      (if failed env.plat.getAssertionHr then
        Outcome.err ("WebAuthNAuthenticatorGetAssertion failed: "
          ++ HResultToString env.plat.getAssertionHr)
      else Outcome.okBool true) := by
  unfold syncAssertPreflightOk at hok
  simp only [Bool.and_eq_true] at hok
  obtain ⟨⟨hcom, hsec⟩, hrc⟩ := hok
  rw [Bool.not_eq_true'] at hsec
  unfold GetAssertionSync
  by_cases hf : failed env.plat.getAssertionHr = true
  · simp [hcom, hsec, hrc, hf]
  · rw [Bool.not_eq_true] at hf
    simp [hcom, hsec, hrc, hf]

/-- A `GetAssertionSync` trace that contains the platform call got past
COM init, security init and the challenge generation. -/
theorem assertSync_getAssert_implies_preflight (env : SyncEnv) (sec : SecState)
    (rpId : String) (credId : List Byte) (hA : Hwnd)
    (hga : traceHasGetAssert (GetAssertionSync env sec rpId credId hA).2.1 = true) :
    syncAssertPreflightOk env sec = true := by
  unfold GetAssertionSync at hga
  by_cases hcom : env.comInitOk = true
  · by_cases hsec :
      failed (EnsureComSecurityInitialized env.secPlatformHr sec).2.1 = true
    · simp [hcom, hsec, traceHasGetAssert] at hga
    · rw [Bool.not_eq_true] at hsec
      by_cases hrc : env.plat.randomChallengeOk = true
      · unfold syncAssertPreflightOk
        simp [hcom, hsec, hrc]
      · rw [Bool.not_eq_true] at hrc
        simp [hcom, hsec, hrc, traceHasGetAssert] at hga
  · rw [Bool.not_eq_true] at hcom
    simp [hcom, traceHasGetAssert] at hga

/-- An async create request with a live-looking caller handle (5) that no
window world validates, as the binding stores it (addon.cc:808-815). -/
def asyncCreateCtx : AsyncCtx :=
  { rpId := "example.com", rpName := "X", userName := "Y", parentHwnd := 5,
    credentialId := [], doMakeCredential := true }

/-- Counterexample to C1: an asynchronous createCredential ceremony that
reaches the platform authenticator (exactly one platform call, on handle
5) although no process-wide security initialization was performed on its
path (no `secInit` event) and the handle it uses would not survive
validity resolution (in a world with no live windows, resolution maps 5
to null, yet the platform call receives 5). -/
theorem asyncCreate_bypasses_guards_cex :
    makeCredHwnds (Execute platOk asyncCreateCtx).trace = [5]
    ∧ traceHasSecInit (Execute platOk asyncCreateCtx).trace = false
    ∧ GetValidHwndForWebAuthn winEmpty 5 = 0
    ∧ (5 : Hwnd) ≠ 0 :=
  ⟨by decide, by decide, by decide, by decide⟩

/-- C1 (amended): the synchronous ceremonies satisfy the claim — whenever
`CreateCredentialSync` or `GetAssertionSync` reaches the platform
authenticator, the trace opens with a succeeded process-wide
security-initialization observation and the platform call receives
exactly the handle produced by the validity/foreground resolution — while
the asynchronous worker performs no security initialization and passes
the caller-supplied handle to every platform call unvalidated. -/
theorem ceremony_guards_sync_only
    (envC envA : SyncEnv) (secC secA : SecState)
    (rpIdC rpNameC userNameC rpIdA : String) (credIdA : List Byte)
    (hC hA : Hwnd) (penv : PlatformEnv) (ctx : AsyncCtx)
    (hmc : traceHasMakeCred
      (CreateCredentialSync envC secC rpIdC rpNameC userNameC hC).2.1 = true)
    (hga : traceHasGetAssert
      (GetAssertionSync envA secA rpIdA credIdA hA).2.1 = true) :
    secInitSucceededFirst
      (CreateCredentialSync envC secC rpIdC rpNameC userNameC hC).2.1 = true
    ∧ makeCredHwnds (CreateCredentialSync envC secC rpIdC rpNameC userNameC hC).2.1
        = [syncCreatePlatformHwnd envC hC]
    ∧ secInitSucceededFirst (GetAssertionSync envA secA rpIdA credIdA hA).2.1 = true
    ∧ getAssertHwnds (GetAssertionSync envA secA rpIdA credIdA hA).2.1
        = [syncAssertPlatformHwnd envA hA]
    ∧ traceHasSecInit (Execute penv ctx).trace = false
    ∧ (makeCredHwnds (Execute penv ctx).trace).all
        (fun h => h == ctx.parentHwnd) = true
    ∧ (getAssertHwnds (Execute penv ctx).trace).all
        (fun h => h == ctx.parentHwnd) = true := by
  have hpfC := createSync_makeCred_implies_preflight envC secC rpIdC rpNameC
    userNameC hC hmc
  have htrC := createSync_trace_of_preflight envC secC rpIdC rpNameC
    userNameC hC hpfC
  have hpfA := assertSync_getAssert_implies_preflight envA secA rpIdA credIdA hA hga
  have htrA := assertSync_trace_of_preflight envA secA rpIdA credIdA hA hpfA
  have hsecC : failed (EnsureComSecurityInitialized envC.secPlatformHr secC).2.1
      = false := by
    unfold syncCreatePreflightOk at hpfC
    simp only [Bool.and_eq_true] at hpfC
    have h := hpfC.1.1.2
    rwa [Bool.not_eq_true'] at h
  have hsecA : failed (EnsureComSecurityInitialized envA.secPlatformHr secA).2.1
      = false := by
    unfold syncAssertPreflightOk at hpfA
    simp only [Bool.and_eq_true] at hpfA
    have h := hpfA.1.2
    rwa [Bool.not_eq_true'] at h
  refine ⟨?_, ?_, ?_, ?_, execute_no_secInit penv ctx,
    execute_makeCred_hwnd penv ctx, execute_getAssert_hwnd penv ctx⟩
  · rw [htrC]
    simp [secInitSucceededFirst, succeeded_of_not_failed _ hsecC]
  · rw [htrC]
    simp [makeCredHwnds, makeCredHwnds_freeAttIf]
  · rw [htrA]
    simp [secInitSucceededFirst, succeeded_of_not_failed _ hsecA]
  · rw [htrA]
    simp [getAssertHwnds, getAssertHwnds_freeAssertIf]

/-- Witness for C1 (amended) in the everything-succeeds world. -/
theorem ceremony_guards_sync_only_witness :
    traceHasMakeCred
      (CreateCredentialSync syncEnvOk SecState.notYet "example.com" "X" "Y" 0).2.1 = true
    ∧ traceHasGetAssert
        (GetAssertionSync syncEnvOk SecState.notYet "example.com" [1] 0).2.1 = true
    ∧ (secInitSucceededFirst
        (CreateCredentialSync syncEnvOk SecState.notYet "example.com" "X" "Y" 0).2.1 = true
      ∧ makeCredHwnds
          (CreateCredentialSync syncEnvOk SecState.notYet "example.com" "X" "Y" 0).2.1
          = [syncCreatePlatformHwnd syncEnvOk 0]
      ∧ secInitSucceededFirst
          (GetAssertionSync syncEnvOk SecState.notYet "example.com" [1] 0).2.1 = true
      ∧ getAssertHwnds
          (GetAssertionSync syncEnvOk SecState.notYet "example.com" [1] 0).2.1
          = [syncAssertPlatformHwnd syncEnvOk 0]
      ∧ traceHasSecInit (Execute platOk asyncCreateCtx).trace = false
      ∧ (makeCredHwnds (Execute platOk asyncCreateCtx).trace).all
          (fun h => h == asyncCreateCtx.parentHwnd) = true
      ∧ (getAssertHwnds (Execute platOk asyncCreateCtx).trace).all
          (fun h => h == asyncCreateCtx.parentHwnd) = true) :=
  ⟨by decide, by decide,
   ceremony_guards_sync_only syncEnvOk syncEnvOk SecState.notYet SecState.notYet
     "example.com" "X" "Y" "example.com" [1] 0 0 platOk asyncCreateCtx
     (by decide) (by decide)⟩

/-- An async create request with an empty relying-party id. -/
def asyncEmptyRpCtx : AsyncCtx :=
  { rpId := "", rpName := "X", userName := "Y", parentHwnd := 0,
    credentialId := [], doMakeCredential := true }

/-- Counterexample to C2: the synchronous createCredential with an empty
relying-party id performs no argument check — in an everything-succeeds
world it reaches the platform authenticator (the trace contains the
platform call) and resolves with the platform's credential id instead of
failing with an InvalidArgument error. -/
theorem createSync_empty_rpId_reaches_platform_cex :
    traceHasMakeCred
      (CreateCredentialSync syncEnvOk SecState.notYet "" "X" "Y" 0).2.1 = true
    ∧ (CreateCredentialSync syncEnvOk SecState.notYet "" "X" "Y" 0).1
        = Outcome.ok [1] :=
  ⟨by decide, by decide⟩

/-- C2 (amended): the asynchronous createCredential with an empty
relying-party id fails with the InvalidArgument-class error
`"rpId is required"` and attempts no platform call (its trace is empty);
the synchronous variant performs no such emptiness check and, whenever it
gets past COM init, security init and random generation, proceeds to the
platform call. -/
theorem createCredential_empty_rpId_async_only
    (penv : PlatformEnv) (ctx : AsyncCtx) (env : SyncEnv) (sec : SecState)
    (rpName userName : String) (hC : Hwnd)
    (hav : ctx.doIsAvailable = false) (_hmk : ctx.doMakeCredential = true)
    (hrp : ctx.rpId = "")
    (hok : syncCreatePreflightOk env sec = true) :
    (Execute penv ctx).error = "rpId is required"
    ∧ isInvalidArgMsg (Execute penv ctx).error = true
    ∧ (Execute penv ctx).trace = []
    ∧ traceHasMakeCred
        (CreateCredentialSync env sec "" rpName userName hC).2.1 = true := by
  have hex : Execute penv ctx =
      { error := "rpId is required", boolResult := false,
        bufferResult := [], trace := [] } := by
    unfold Execute
    simp [hav, hrp]
  refine ⟨by rw [hex], by rw [hex]; rfl, by rw [hex], ?_⟩
  rw [createSync_trace_of_preflight env sec "" rpName userName hC hok]
  simp [traceHasMakeCred]

/-- Witness for C2 (amended). -/
theorem createCredential_empty_rpId_async_only_witness :
    asyncEmptyRpCtx.doIsAvailable = false
    ∧ asyncEmptyRpCtx.doMakeCredential = true
    ∧ asyncEmptyRpCtx.rpId = ""
    ∧ syncCreatePreflightOk syncEnvOk SecState.notYet = true
    ∧ ((Execute platOk asyncEmptyRpCtx).error = "rpId is required"
      ∧ isInvalidArgMsg (Execute platOk asyncEmptyRpCtx).error = true
      ∧ (Execute platOk asyncEmptyRpCtx).trace = []
      ∧ traceHasMakeCred
          (CreateCredentialSync syncEnvOk SecState.notYet "" "X" "Y" 0).2.1 = true) :=
  ⟨rfl, rfl, rfl, by decide,
   createCredential_empty_rpId_async_only platOk asyncEmptyRpCtx syncEnvOk
     SecState.notYet "X" "Y" 0 rfl rfl rfl (by decide)⟩

/-- An async assertion request with an empty credential id. -/
def asyncEmptyCredCtx : AsyncCtx :=
  { rpId := "example.com", rpName := "", userName := "", parentHwnd := 0,
    credentialId := [], doGetAssertion := true }

/-- Counterexample to C9: the synchronous getAssertion with an empty
credential id performs no argument check — in an everything-succeeds
world it reaches the platform authenticator (the trace contains the
platform call, carrying the empty id in its allow-list) and resolves
`true` instead of failing with an InvalidArgument error. -/
theorem assertSync_empty_credId_reaches_platform_cex :
    traceHasGetAssert
      (GetAssertionSync syncEnvOk SecState.notYet "example.com" [] 0).2.1 = true
    ∧ (GetAssertionSync syncEnvOk SecState.notYet "example.com" [] 0).1
        = Outcome.okBool true :=
  ⟨by decide, by decide⟩

/-- C9 (amended): the asynchronous getAssertion with an empty credential
id fails with an InvalidArgument-class error (`"credentialId is
required"`, or `"rpId is required"` when the relying-party id is also
empty, which is checked first) and attempts no platform call; the
synchronous variant performs no such emptiness check and, whenever it
gets past COM init, security init and challenge generation, proceeds to
the platform call. -/
theorem getAssertion_empty_credId_async_only
    (penv : PlatformEnv) (ctx : AsyncCtx) (env : SyncEnv) (sec : SecState)
    (rpId : String) (hA : Hwnd)
    (hav : ctx.doIsAvailable = false) (hmk : ctx.doMakeCredential = false)
    (hga : ctx.doGetAssertion = true) (hcred : ctx.credentialId = [])
    (hok : syncAssertPreflightOk env sec = true) :
    isInvalidArgMsg (Execute penv ctx).error = true
    ∧ (Execute penv ctx).trace = []
    ∧ traceHasGetAssert (GetAssertionSync env sec rpId [] hA).2.1 = true := by
  refine ⟨?_, ?_, ?_⟩
  · by_cases hrp : ctx.rpId = ""
    · have hex : (Execute penv ctx).error = "rpId is required" := by
        unfold Execute
        simp [hav, hrp]
      rw [hex]
      rfl
    · have hex : (Execute penv ctx).error = "credentialId is required" := by
        unfold Execute
        simp [hav, hrp, hmk, hga, hcred]
      rw [hex]
      rfl
  · by_cases hrp : ctx.rpId = ""
    · unfold Execute
      simp [hav, hrp]
    · unfold Execute
      simp [hav, hrp, hmk, hga, hcred]
  · rw [assertSync_trace_of_preflight env sec rpId [] hA hok]
    simp [traceHasGetAssert]

/-- Witness for C9 (amended). -/
theorem getAssertion_empty_credId_async_only_witness :
    asyncEmptyCredCtx.doIsAvailable = false
    ∧ asyncEmptyCredCtx.doMakeCredential = false
    ∧ asyncEmptyCredCtx.doGetAssertion = true
    ∧ asyncEmptyCredCtx.credentialId = []
    ∧ syncAssertPreflightOk syncEnvOk SecState.notYet = true
    ∧ (isInvalidArgMsg (Execute platOk asyncEmptyCredCtx).error = true
      ∧ (Execute platOk asyncEmptyCredCtx).trace = []
      ∧ traceHasGetAssert
          (GetAssertionSync syncEnvOk SecState.notYet "example.com" [] 0).2.1 = true) :=
  ⟨rfl, rfl, rfl, rfl, by decide,
   getAssertion_empty_credId_async_only platOk asyncEmptyCredCtx syncEnvOk
     SecState.notYet "example.com" 0 rfl rfl rfl rfl (by decide)⟩

/-- Counting frees in the conditional attestation free: one exactly when
the platform handed back a non-null attestation. -/
theorem freeAttCount_freeAttIf (o : Option Attestation) :
    freeAttCount (freeAttestationIf o) = (if o.isSome then 1 else 0) := by
  cases o <;> rfl

/-- The conditional attestation free carries no options record. -/
theorem makeCredOptsOf_freeAttIf (o : Option Attestation) :
    makeCredOptsOf (freeAttestationIf o) = [] := by
  cases o <;> rfl

/-- The conditional attestation free carries no name triple. -/
theorem makeCredNames_freeAttIf (o : Option Attestation) :
    makeCredNames (freeAttestationIf o) = [] := by
  cases o <;> rfl

/-- C4: on every createCredential that reaches the platform (async and
sync), the native attestation result is released exactly once exactly
when the platform handed one back; a platform success carrying an
empty/absent credential id fails with the distinct missing-credential-id
error; and a clean success returns a copy of exactly the credential-id
bytes the platform returned. -/
theorem createCredential_attestation_lifecycle
    (penv : PlatformEnv) (ctx : AsyncCtx) (env : SyncEnv) (sec : SecState)
    (rpId rpName userName : String) (hC : Hwnd)
    (hav : ctx.doIsAvailable = false) (hmk : ctx.doMakeCredential = true)
    (hrp : ctx.rpId ≠ "") (hr1 : penv.randomChallengeOk = true)
    (hr2 : penv.randomUserIdOk = true)
    (hok : syncCreatePreflightOk env sec = true) :
    freeAttCount (Execute penv ctx).trace
        = (if penv.makeCredentialResult.isSome then 1 else 0)
    ∧ (Execute penv ctx).error
        = createResultError penv.makeCredentialHr penv.makeCredentialResult
    ∧ (Execute penv ctx).bufferResult
        = createResultBuffer penv.makeCredentialHr penv.makeCredentialResult
    ∧ freeAttCount (CreateCredentialSync env sec rpId rpName userName hC).2.1
        = (if env.plat.makeCredentialResult.isSome then 1 else 0)
    ∧ (CreateCredentialSync env sec rpId rpName userName hC).1
        = (if failed env.plat.makeCredentialHr then
            Outcome.err ("WebAuthNAuthenticatorMakeCredential failed: "
              ++ HResultToString env.plat.makeCredentialHr)
          else if attMissing env.plat.makeCredentialResult then
            Outcome.err "Credential attestation missing credentialId"
          else Outcome.ok (attBytes env.plat.makeCredentialResult)) := by
  refine ⟨?_, ?_, ?_, ?_,
    createSync_outcome_of_preflight env sec rpId rpName userName hC hok⟩
  · unfold Execute
    by_cases hf : failed penv.makeCredentialHr = true
    · simp [hav, hmk, hrp, hr1, hr2, hf, freeAttCount, freeAttCount_freeAttIf]
    · rw [Bool.not_eq_true] at hf
      by_cases hm : attMissing penv.makeCredentialResult = true
      · simp [hav, hmk, hrp, hr1, hr2, hf, hm, freeAttCount, freeAttCount_freeAttIf]
      · rw [Bool.not_eq_true] at hm
        have hs := isSome_of_not_attMissing _ hm
        simp [hav, hmk, hrp, hr1, hr2, hf, hm, freeAttCount, hs]
  · unfold Execute
    by_cases hf : failed penv.makeCredentialHr = true
    · simp [hav, hmk, hrp, hr1, hr2, hf, createResultError]
    · rw [Bool.not_eq_true] at hf
      by_cases hm : attMissing penv.makeCredentialResult = true
      · simp [hav, hmk, hrp, hr1, hr2, hf, hm, createResultError]
      · rw [Bool.not_eq_true] at hm
        simp [hav, hmk, hrp, hr1, hr2, hf, hm, createResultError]
  · unfold Execute
    by_cases hf : failed penv.makeCredentialHr = true
    · simp [hav, hmk, hrp, hr1, hr2, hf, createResultBuffer]
    · rw [Bool.not_eq_true] at hf
      by_cases hm : attMissing penv.makeCredentialResult = true
      · simp [hav, hmk, hrp, hr1, hr2, hf, hm, createResultBuffer]
      · rw [Bool.not_eq_true] at hm
        simp [hav, hmk, hrp, hr1, hr2, hf, hm, createResultBuffer]
  · rw [createSync_trace_of_preflight env sec rpId rpName userName hC hok]
    simp [freeAttCount, freeAttCount_freeAttIf]

/-- Witness for C4 in the everything-succeeds world: the platform returns
a one-byte credential id, exactly one release is observed on each path,
and both paths return exactly that byte. -/
theorem createCredential_attestation_lifecycle_witness :
    asyncCreateCtx.doIsAvailable = false
    ∧ asyncCreateCtx.doMakeCredential = true
    ∧ asyncCreateCtx.rpId ≠ ""
    ∧ platOk.randomChallengeOk = true
    ∧ platOk.randomUserIdOk = true
    ∧ syncCreatePreflightOk syncEnvOk SecState.notYet = true
    ∧ (freeAttCount (Execute platOk asyncCreateCtx).trace
        = (if platOk.makeCredentialResult.isSome then 1 else 0)
      ∧ (Execute platOk asyncCreateCtx).error
          = createResultError platOk.makeCredentialHr platOk.makeCredentialResult
      ∧ (Execute platOk asyncCreateCtx).bufferResult
          = createResultBuffer platOk.makeCredentialHr platOk.makeCredentialResult
      ∧ freeAttCount
          (CreateCredentialSync syncEnvOk SecState.notYet "example.com" "X" "Y" 0).2.1
          = (if syncEnvOk.plat.makeCredentialResult.isSome then 1 else 0)
      ∧ (CreateCredentialSync syncEnvOk SecState.notYet "example.com" "X" "Y" 0).1
          = (if failed syncEnvOk.plat.makeCredentialHr then
              Outcome.err ("WebAuthNAuthenticatorMakeCredential failed: "
                ++ HResultToString syncEnvOk.plat.makeCredentialHr)
            else if attMissing syncEnvOk.plat.makeCredentialResult then
              Outcome.err "Credential attestation missing credentialId"
            else Outcome.ok (attBytes syncEnvOk.plat.makeCredentialResult))) :=
  ⟨rfl, rfl, by decide, rfl, rfl, by decide,
   createCredential_attestation_lifecycle platOk asyncCreateCtx syncEnvOk
     SecState.notYet "example.com" "X" "Y" 0 rfl rfl (by decide) rfl rfl (by decide)⟩

/-- C8: every createCredential that reaches the platform (async and
sync) passes exactly one options record offering exactly the two
public-key algorithms ES256 then RS256 in that order, platform
attachment, required user verification, attestation conveyance "none",
and a 60000 ms timeout. -/
theorem createCredential_fixed_options
    (penv : PlatformEnv) (ctx : AsyncCtx) (env : SyncEnv) (sec : SecState)
    (rpId rpName userName : String) (hC : Hwnd)
    (hav : ctx.doIsAvailable = false) (hmk : ctx.doMakeCredential = true)
    (hrp : ctx.rpId ≠ "") (hr1 : penv.randomChallengeOk = true)
    (hr2 : penv.randomUserIdOk = true)
    (hok : syncCreatePreflightOk env sec = true) :
    makeCredOptsOf (Execute penv ctx).trace =
      [{ timeoutMs := 60000
         userVerificationRequirement := WEBAUTHN_USER_VERIFICATION_REQUIREMENT_REQUIRED
         attestationConveyancePreference := WEBAUTHN_ATTESTATION_CONVEYANCE_PREFERENCE_NONE
         authenticatorAttachment := WEBAUTHN_AUTHENTICATOR_ATTACHMENT_PLATFORM
         coseAlgorithms := [WEBAUTHN_COSE_ALGORITHM_ECDSA_P256_WITH_SHA256,
                            WEBAUTHN_COSE_ALGORITHM_RSASSA_PKCS1_V1_5_WITH_SHA256] }]
    ∧ makeCredOptsOf (CreateCredentialSync env sec rpId rpName userName hC).2.1 =
      [{ timeoutMs := 60000
         userVerificationRequirement := WEBAUTHN_USER_VERIFICATION_REQUIREMENT_REQUIRED
         attestationConveyancePreference := WEBAUTHN_ATTESTATION_CONVEYANCE_PREFERENCE_NONE
         authenticatorAttachment := WEBAUTHN_AUTHENTICATOR_ATTACHMENT_PLATFORM
         coseAlgorithms := [WEBAUTHN_COSE_ALGORITHM_ECDSA_P256_WITH_SHA256,
                            WEBAUTHN_COSE_ALGORITHM_RSASSA_PKCS1_V1_5_WITH_SHA256] }] := by
  constructor
  · unfold Execute
    by_cases hf : failed penv.makeCredentialHr = true
    · simp [hav, hmk, hrp, hr1, hr2, hf, makeCredOptsOf, makeCredOptsOf_freeAttIf,
        builtMakeCredentialOptions]
    · rw [Bool.not_eq_true] at hf
      by_cases hm : attMissing penv.makeCredentialResult = true
      · simp [hav, hmk, hrp, hr1, hr2, hf, hm, makeCredOptsOf,
          makeCredOptsOf_freeAttIf, builtMakeCredentialOptions]
      · rw [Bool.not_eq_true] at hm
        simp [hav, hmk, hrp, hr1, hr2, hf, hm, makeCredOptsOf,
          builtMakeCredentialOptions]
  · rw [createSync_trace_of_preflight env sec rpId rpName userName hC hok]
    simp [makeCredOptsOf, makeCredOptsOf_freeAttIf, builtMakeCredentialOptions]

/-- Witness for C8 in the everything-succeeds world. -/
theorem createCredential_fixed_options_witness :
    asyncCreateCtx.doIsAvailable = false
    ∧ asyncCreateCtx.doMakeCredential = true
    ∧ asyncCreateCtx.rpId ≠ ""
    ∧ platOk.randomChallengeOk = true
    ∧ platOk.randomUserIdOk = true
    ∧ syncCreatePreflightOk syncEnvOk SecState.notYet = true
    ∧ (makeCredOptsOf (Execute platOk asyncCreateCtx).trace =
        [{ timeoutMs := 60000
           userVerificationRequirement := WEBAUTHN_USER_VERIFICATION_REQUIREMENT_REQUIRED
           attestationConveyancePreference := WEBAUTHN_ATTESTATION_CONVEYANCE_PREFERENCE_NONE
           authenticatorAttachment := WEBAUTHN_AUTHENTICATOR_ATTACHMENT_PLATFORM
           coseAlgorithms := [WEBAUTHN_COSE_ALGORITHM_ECDSA_P256_WITH_SHA256,
                              WEBAUTHN_COSE_ALGORITHM_RSASSA_PKCS1_V1_5_WITH_SHA256] }]
      ∧ makeCredOptsOf
          (CreateCredentialSync syncEnvOk SecState.notYet "example.com" "X" "Y" 0).2.1 =
        [{ timeoutMs := 60000
           userVerificationRequirement := WEBAUTHN_USER_VERIFICATION_REQUIREMENT_REQUIRED
           attestationConveyancePreference := WEBAUTHN_ATTESTATION_CONVEYANCE_PREFERENCE_NONE
           authenticatorAttachment := WEBAUTHN_AUTHENTICATOR_ATTACHMENT_PLATFORM
           coseAlgorithms := [WEBAUTHN_COSE_ALGORITHM_ECDSA_P256_WITH_SHA256,
                              WEBAUTHN_COSE_ALGORITHM_RSASSA_PKCS1_V1_5_WITH_SHA256] }]) :=
  ⟨rfl, rfl, by decide, rfl, rfl, by decide,
   createCredential_fixed_options platOk asyncCreateCtx syncEnvOk
     SecState.notYet "example.com" "X" "Y" 0 rfl rfl (by decide) rfl rfl (by decide)⟩

/-- An async create request with empty relying-party and user names,
exercising the name substitutions. -/
def asyncSubstCtx : AsyncCtx :=
  { rpId := "example.com", rpName := "", userName := "", parentHwnd := 0,
    credentialId := [], doMakeCredential := true }

/-- C10: every createCredential that reaches the platform (async and
sync) substitutes the relying-party id for an empty relying-party name,
and the literal `"Netcatty"` for an empty user name as both the user
name and the user display name. -/
theorem createCredential_name_substitution
    (penv : PlatformEnv) (ctx : AsyncCtx) (env : SyncEnv) (sec : SecState)
    (rpId rpName userName : String) (hC : Hwnd)
    (hav : ctx.doIsAvailable = false) (hmk : ctx.doMakeCredential = true)
    (hrp : ctx.rpId ≠ "") (hr1 : penv.randomChallengeOk = true)
    (hr2 : penv.randomUserIdOk = true)
    (hok : syncCreatePreflightOk env sec = true) :
    makeCredNames (Execute penv ctx).trace =
      [(if ctx.rpName = "" then ctx.rpId else ctx.rpName,
        if ctx.userName = "" then "Netcatty" else ctx.userName,
        if ctx.userName = "" then "Netcatty" else ctx.userName)]
    ∧ makeCredNames (CreateCredentialSync env sec rpId rpName userName hC).2.1 =
      [(if rpName = "" then rpId else rpName,
        if userName = "" then "Netcatty" else userName,
        if userName = "" then "Netcatty" else userName)] := by
  constructor
  · unfold Execute
    by_cases hf : failed penv.makeCredentialHr = true
    · simp [hav, hmk, hrp, hr1, hr2, hf, makeCredNames, makeCredNames_freeAttIf]
    · rw [Bool.not_eq_true] at hf
      by_cases hm : attMissing penv.makeCredentialResult = true
      · simp [hav, hmk, hrp, hr1, hr2, hf, hm, makeCredNames, makeCredNames_freeAttIf]
      · rw [Bool.not_eq_true] at hm
        simp [hav, hmk, hrp, hr1, hr2, hf, hm, makeCredNames]
  · rw [createSync_trace_of_preflight env sec rpId rpName userName hC hok]
    simp [makeCredNames, makeCredNames_freeAttIf]

/-- Witness for C10 at empty relying-party and user names: the platform
receives `example.com` as the relying-party name and `Netcatty` as both
user fields, on both paths. -/
theorem createCredential_name_substitution_witness :
    asyncSubstCtx.doIsAvailable = false
    ∧ asyncSubstCtx.doMakeCredential = true
    ∧ asyncSubstCtx.rpId ≠ ""
    ∧ platOk.randomChallengeOk = true
    ∧ platOk.randomUserIdOk = true
    ∧ syncCreatePreflightOk syncEnvOk SecState.notYet = true
    ∧ (makeCredNames (Execute platOk asyncSubstCtx).trace =
        [(if asyncSubstCtx.rpName = "" then asyncSubstCtx.rpId else asyncSubstCtx.rpName,
          if asyncSubstCtx.userName = "" then "Netcatty" else asyncSubstCtx.userName,
          if asyncSubstCtx.userName = "" then "Netcatty" else asyncSubstCtx.userName)]
      ∧ makeCredNames
          (CreateCredentialSync syncEnvOk SecState.notYet "example.com" "" "" 0).2.1 =
        [(if "" = ("" : String) then "example.com" else "",
          if "" = ("" : String) then "Netcatty" else "",
          if "" = ("" : String) then "Netcatty" else "")]) :=
  ⟨rfl, rfl, by decide, rfl, rfl, by decide,
   createCredential_name_substitution platOk asyncSubstCtx syncEnvOk
     SecState.notYet "example.com" "" "" 0 rfl rfl (by decide) rfl rfl (by decide)⟩

end Netcatty
